import Mathlib

/-!
Verification of the namespace classifier and module builder of
`sbol_utilities/define_module.py`, via a shallow embedding.

A top-level object carries an `identity` and a `namespace` string; a
synthesized module additionally carries a `members` list (plain objects have
`members = none`).  A document is its ordered list of top-level objects.
Python's `IndexError` on indexing an empty list is modelled with
`Except.error`, and Python's implicit `return None` with `Option`.
-/

namespace DefineModule

/-- A top-level object of an SBOL document, restricted to the attributes the
code reads or writes: `identity`, `namespace`, and (for synthesized modules
only) `members`.  Plain objects carry `members = none`. -/
structure TLObject where
  identity : String
  «namespace» : String
  members : Option (List String)
deriving Repr, DecidableEq

/-- A document: an ordered collection of top-level objects (`doc.objects`). -/
structure Document where
  objects : List TLObject
deriving Repr, DecidableEq

/-- Shallow embedding of `check_namespaces(doc)`.

The source computes `all_namespaces = [o.namespace for o in doc.objects]`,
then `is_module = all(x == all_namespaces[0] for x in all_namespaces)`, then
`namespace = all_namespaces[0]`.  The generator inside `all` is lazy, so on an
empty document `all` yields `True` without ever evaluating
`all_namespaces[0]`; the subsequent assignment `namespace = all_namespaces[0]`
then raises `IndexError`, modelled here as `Except.error`. -/
def check_namespaces (doc : Document) : Except String (Bool × String) :=
  let all_namespaces := doc.objects.map (fun o => o.«namespace»)
  match all_namespaces with
  | [] => Except.error "IndexError: list index out of range"
  | first :: _ =>
      let is_module := all_namespaces.all (fun x => x == first)
      Except.ok (is_module, first)

/-- Shallow embedding of `define_module(doc)`.

When `check_namespaces` reports a module, the source collects
`all_identities = [o.identity for o in doc.objects]`, builds
`Module(module_namespace + '/module')` with those members and the shared
namespace, appends it via `doc.add(module)`, and returns the document.  When
`is_module` is false the function falls off the end and returns Python's
`None`, modelled as `Option.none`.  An `IndexError` raised inside
`check_namespaces` propagates. -/
def define_module (doc : Document) : Except String (Option Document) :=
  match check_namespaces doc with
  | Except.error e => Except.error e
  | Except.ok (is_module, module_namespace) =>
      if is_module then
        let all_identities := doc.objects.map (fun o => o.identity)
        let module : TLObject :=
          { identity := module_namespace ++ "/module",
            «namespace» := module_namespace,
            members := some all_identities }
        Except.ok (some { objects := doc.objects ++ [module] })
      else
        Except.ok none

/-- On a document reported uniform by `check_namespaces`, `define_module`
appends exactly the module whose identity is the shared namespace followed by
`"/module"`, whose namespace is the shared namespace, and whose members are
the identities of the pre-existing objects in document order. -/
theorem define_module_uniform (doc : Document) (ns : String)
    (h : check_namespaces doc = Except.ok (true, ns)) :
    define_module doc = Except.ok (some
      { objects := doc.objects ++
          [{ identity := ns ++ "/module",
             «namespace» := ns,
             members := some (doc.objects.map (fun o => o.identity)) }] }) := by
  unfold define_module
  rw [h]
  rfl

/-- Unfolding of `check_namespaces` on a non-empty document: the boolean is the
`all`-fold comparing every namespace to the first object's namespace, and the
second component is the first object's namespace. -/
theorem check_namespaces_cons (o : TLObject) (rest : List TLObject) :
    check_namespaces { objects := o :: rest } =
      Except.ok (((o :: rest).map (fun p => p.«namespace»)).all
        (fun x => x == o.«namespace»), o.«namespace») := rfl

/-- Example objects used as concrete inputs. -/
def exA : TLObject :=
  { identity := "https://ex.org/a/1", «namespace» := "https://ex.org/a", members := none }

def exA2 : TLObject :=
  { identity := "https://ex.org/a/2", «namespace» := "https://ex.org/a", members := none }

def exB : TLObject :=
  { identity := "https://ex.org/b/1", «namespace» := "https://ex.org/b", members := none }

def exM : TLObject :=
  { identity := "https://ex.org/a/module", «namespace» := "https://ex.org/a", members := none }

/-- Claim C1 (code evaluated at the failing input): on the empty document,
`check_namespaces` does not yield a distinct `EmptyDocument` result; the lazy
`all` returns `True` and the subsequent `all_namespaces[0]` raises an
index-out-of-range fault (`IndexError`). -/
theorem C1_empty_document_index_fault :
    check_namespaces { objects := [] } =
      Except.error "IndexError: list index out of range" := rfl

/-- Claim C2 (code evaluated at the failing input): on a document whose two
objects carry distinct namespaces, `define_module` falls off the end of the
function and returns Python's `None` (modelled `Except.ok none`) — an
empty/null value, not a tagged not-a-module result. -/
theorem C2_not_module_returns_none :
    define_module { objects := [exA, exB] } = Except.ok none := rfl

/-- Claim C3: for every non-empty document whose objects all carry the same
namespace string, `check_namespaces` returns `(true, that namespace)`, the
namespace being the first object's namespace under case-sensitive string
equality. -/
theorem C3_uniform_returns_true (doc : Document) (o : TLObject)
    (rest : List TLObject) (hobj : doc.objects = o :: rest)
    (huni : ∀ p ∈ doc.objects, p.«namespace» = o.«namespace») :
    check_namespaces doc = Except.ok (true, o.«namespace») := by
  obtain ⟨objs⟩ := doc
  simp only at hobj
  subst hobj
  rw [check_namespaces_cons]
  have hall : ((o :: rest).map (fun p => p.«namespace»)).all
      (fun x => x == o.«namespace») = true := by
    rw [List.all_eq_true]
    intro x hx
    obtain ⟨p, hp, rfl⟩ := List.mem_map.mp hx
    exact beq_iff_eq.mpr (huni p hp)
  rw [hall]

/-- Witness for C3 at a concrete single-object document. -/
theorem C3_witness :
    check_namespaces { objects := [exA] } =
      Except.ok (true, "https://ex.org/a") :=
  C3_uniform_returns_true { objects := [exA] } exA [] rfl (by decide)

/-- Claim C4: for every document containing two objects with distinct
namespace strings, `check_namespaces` returns `false` as its first
component. -/
theorem C4_distinct_returns_false (doc : Document) (o1 o2 : TLObject)
    (h1 : o1 ∈ doc.objects) (h2 : o2 ∈ doc.objects)
    (hne : o1.«namespace» ≠ o2.«namespace») :
    ∃ ns, check_namespaces doc = Except.ok (false, ns) := by
  obtain ⟨objs⟩ := doc
  simp only at h1 h2
  cases objs with
  | nil => exact absurd h1 (List.not_mem_nil o1)
  | cons o rest =>
    refine ⟨o.«namespace», ?_⟩
    rw [check_namespaces_cons]
    have hall : ((o :: rest).map (fun p => p.«namespace»)).all
        (fun x => x == o.«namespace») = false := by
      apply Bool.eq_false_iff.mpr
      intro htrue
      rw [List.all_eq_true] at htrue
      have e1 : o1.«namespace» = o.«namespace» :=
        beq_iff_eq.mp (htrue _ (List.mem_map.mpr ⟨o1, h1, rfl⟩))
      have e2 : o2.«namespace» = o.«namespace» :=
        beq_iff_eq.mp (htrue _ (List.mem_map.mpr ⟨o2, h2, rfl⟩))
      exact hne (e1.trans e2.symm)
    rw [hall]

/-- Witness for C4 at a concrete two-object document with distinct
namespaces. -/
theorem C4_witness :
    ∃ ns, check_namespaces { objects := [exA, exB] } =
      Except.ok (false, ns) :=
  C4_distinct_returns_false { objects := [exA, exB] } exA exB
    (by decide) (by decide) (by decide)

/-- Claim C5: when `define_module` builds a module, the module's `members` is
the list of `identity` values of the document's pre-existing top-level
objects, in document iteration order. -/
theorem C5_members_are_identities_in_order (doc : Document) (ns : String)
    (h : check_namespaces doc = Except.ok (true, ns)) :
    ∃ m : TLObject,
      define_module doc = Except.ok (some { objects := doc.objects ++ [m] }) ∧
      m.members = some (doc.objects.map (fun o => o.identity)) :=
  ⟨_, define_module_uniform doc ns h, rfl⟩

/-- Witness for C5 at a concrete uniform document. -/
theorem C5_witness :
    ∃ m : TLObject,
      define_module { objects := [exA, exA2] } =
        Except.ok (some { objects := [exA, exA2] ++ [m] }) ∧
      m.members = some ([exA, exA2].map (fun o => o.identity)) :=
  C5_members_are_identities_in_order { objects := [exA, exA2] }
    "https://ex.org/a" rfl

/-- Claim C6: the constructed module's `identity` is the shared namespace
concatenated with `"/module"`, and its `namespace` is the shared
namespace. -/
theorem C6_identity_and_namespace (doc : Document) (ns : String)
    (h : check_namespaces doc = Except.ok (true, ns)) :
    ∃ m : TLObject,
      define_module doc = Except.ok (some { objects := doc.objects ++ [m] }) ∧
      m.identity = ns ++ "/module" ∧ m.«namespace» = ns :=
  ⟨_, define_module_uniform doc ns h, rfl, rfl⟩

/-- Witness for C6 at a concrete uniform document. -/
theorem C6_witness :
    ∃ m : TLObject,
      define_module { objects := [exA] } =
        Except.ok (some { objects := [exA] ++ [m] }) ∧
      m.identity = "https://ex.org/a" ++ "/module" ∧
      m.«namespace» = "https://ex.org/a" :=
  C6_identity_and_namespace { objects := [exA] } "https://ex.org/a" rfl

/-- Claim C7: on a uniform document, `define_module` returns a document with
exactly one appended object, the pre-existing objects (and all their fields)
standing unchanged as the prefix. -/
theorem C7_appends_exactly_one (doc : Document) (ns : String)
    (h : check_namespaces doc = Except.ok (true, ns)) :
    ∃ d : Document, define_module doc = Except.ok (some d) ∧
      d.objects.take doc.objects.length = doc.objects ∧
      d.objects.length = doc.objects.length + 1 := by
  refine ⟨_, define_module_uniform doc ns h, ?_, ?_⟩
  · exact List.take_left _ _
  · simp

/-- Witness for C7 at a concrete uniform document. -/
theorem C7_witness :
    ∃ d : Document, define_module { objects := [exA] } = Except.ok (some d) ∧
      d.objects.take [exA].length = [exA] ∧
      d.objects.length = [exA].length + 1 :=
  C7_appends_exactly_one { objects := [exA] } "https://ex.org/a" rfl

/-- Claim C8: `check_namespaces` depends only on the sequence of namespace
strings of the document's objects — two documents whose objects list the same
namespaces in the same order are classified identically (and the embedding is
a pure function of the document). -/
theorem C8_depends_only_on_namespaces (d1 d2 : Document)
    (h : d1.objects.map (fun o => o.«namespace») =
         d2.objects.map (fun o => o.«namespace»)) :
    check_namespaces d1 = check_namespaces d2 := by
  unfold check_namespaces
  rw [h]

/-- Witness for C8: two documents whose objects differ in identity but share
their namespace sequence classify identically. -/
theorem C8_witness :
    check_namespaces { objects := [exA] } =
      check_namespaces { objects := [exA2] } :=
  C8_depends_only_on_namespaces { objects := [exA] } { objects := [exA2] } rfl

/-- Claim C9: for every non-empty document the second component returned by
`check_namespaces` is the first object's namespace, whatever the remaining
objects are (so also when the document is not uniform). -/
theorem C9_snd_is_first_namespace (o : TLObject) (rest : List TLObject) :
    ∃ b, check_namespaces { objects := o :: rest } =
      Except.ok (b, o.«namespace») :=
  ⟨_, check_namespaces_cons o rest⟩

/-- Claim C10: `define_module` performs no already-modularized check — on a
uniform document that already contains an object whose identity is the shared
namespace followed by `"/module"`, it still appends a fresh module with that
same identity. -/
theorem C10_no_already_module_guard (doc : Document) (ns : String)
    (h : check_namespaces doc = Except.ok (true, ns))
    (_hexisting : ∃ o ∈ doc.objects, o.identity = ns ++ "/module") :
    ∃ m : TLObject,
      define_module doc = Except.ok (some { objects := doc.objects ++ [m] }) ∧
      m.identity = ns ++ "/module" :=
  ⟨_, define_module_uniform doc ns h, rfl⟩

/-- Witness for C10 at a document already containing a module-identity
object. -/
theorem C10_witness :
    ∃ m : TLObject,
      define_module { objects := [exM] } =
        Except.ok (some { objects := [exM] ++ [m] }) ∧
      m.identity = "https://ex.org/a" ++ "/module" :=
  C10_no_already_module_guard { objects := [exM] } "https://ex.org/a" rfl
    ⟨exM, by decide, by decide⟩

end DefineModule
